import Mathlib

/-!
# VERITAS Claim Verification & Scoring Pipeline — shallow embedding

A shallow embedding, in Lean 4, of the scoring and verification core of the
VERITAS resume-audit system, together with theorems settling the spec's
claims against it.

Modelling conventions, used throughout:

* Python `float` values are modelled as `ℚ`.  Every literal that occurs in
  the scoring formulas (`0.4`, `0.3`, `0.2`, `0.1`, `0.5`) is an exact
  decimal, so the rational model matches the intended real-number formulas
  exactly; IEEE-754 rounding noise is not modelled.
* Python `round` (banker's rounding, round-half-to-even) is modelled by
  `pyRound : ℚ → ℤ`.
* Python `str` is Lean `String`; `str.lower()` is modelled on the ASCII
  range `A`–`Z` (full Unicode case folding is not modelled), and
  `str.strip()` strips the ASCII whitespace characters.
* Python dicts appearing as data are modelled as association lists
  (insertion ordered, later assignment overwrites in place); dicts used as
  records are modelled as structures.  A dict field that the code reads
  with `.get(key)` and that may be absent or `None` is modelled as an
  `Option`.
* Python truthiness: `None`, `{}`, `[]`, `""` and `0` are falsy; where the
  source branches on truthiness the model branches on the corresponding
  `Option.isSome` / non-emptiness / `≠ 0` test, collapsing `None` and the
  empty container into `Option.none` where the source never distinguishes
  them.
-/

/-! ## Python string and number primitives -/

/-- ASCII whitespace, the characters Python's `str.strip()` removes
(restricted to ASCII; Unicode whitespace is not modelled). -/
def pyWs (c : Char) : Bool :=
  c = ' ' || c = '\t' || c = '\n' || c = '\r' || c = '\x0b' || c = '\x0c'

/-- Python `str.lower()` on one character, on the ASCII range. -/
def pyLowerChar (c : Char) : Char :=
  match c with
  | 'A' => 'a' | 'B' => 'b' | 'C' => 'c' | 'D' => 'd' | 'E' => 'e'
  | 'F' => 'f' | 'G' => 'g' | 'H' => 'h' | 'I' => 'i' | 'J' => 'j'
  | 'K' => 'k' | 'L' => 'l' | 'M' => 'm' | 'N' => 'n' | 'O' => 'o'
  | 'P' => 'p' | 'Q' => 'q' | 'R' => 'r' | 'S' => 's' | 'T' => 't'
  | 'U' => 'u' | 'V' => 'v' | 'W' => 'w' | 'X' => 'x' | 'Y' => 'y'
  | 'Z' => 'z'
  | c => c

/-- Python `str.strip()` on a character list: drop leading and trailing
whitespace. -/
def pyStripL (l : List Char) : List Char :=
  ((l.dropWhile pyWs).reverse.dropWhile pyWs).reverse

def pyLowerL (l : List Char) : List Char := l.map pyLowerChar

def pyLowerS (s : String) : String := ⟨pyLowerL s.data⟩

def pyStripS (s : String) : String := ⟨pyStripL s.data⟩

/-- Python `s[-n:]`: the last `min n (length)` elements. -/
def takeLast (n : Nat) (l : List Char) : List Char := l.drop (l.length - n)

/-- Python `s.split(sep)` for a one-character separator. -/
def splitOnChar (sep : Char) : List Char → List (List Char)
  | [] => [[]]
  | c :: rest =>
    let r := splitOnChar sep rest
    if c = sep then [] :: r
    else
      match r with
      | [] => [[c]]
      | h :: t => (c :: h) :: t

/-- Digit-run parser for `pyIntL`: digits optionally separated by single
underscores, as Python's `int()` accepts. `acc` is the value so far. -/
def pyDigitsAux (acc : Nat) : List Char → Option Nat
  | [] => some acc
  | '_' :: c :: rest =>
    if c.isDigit then pyDigitsAux (acc * 10 + (c.toNat - 48)) rest else none
  | c :: rest =>
    if c.isDigit then pyDigitsAux (acc * 10 + (c.toNat - 48)) rest else none

def pyDigits : List Char → Option Nat
  | [] => none
  | c :: rest =>
    if c.isDigit then pyDigitsAux (c.toNat - 48) rest else none

/-- Python `int(s)` on a string: strips whitespace, optional sign, ASCII
digits with underscore grouping.  (Non-ASCII digits are not modelled.) -/
def pyIntL (l : List Char) : Option Int :=
  match pyStripL l with
  | [] => none
  | '+' :: rest => (pyDigits rest).map (fun n => (n : Int))
  | '-' :: rest => (pyDigits rest).map (fun n => -(n : Int))
  | t => (pyDigits t).map (fun n => (n : Int))

/-- Python's `round` on a rational: round half to even (banker's
rounding), as `round(float)` does. -/
def pyRound (q : ℚ) : ℤ :=
  if q - ⌊q⌋ < 1 / 2 then ⌊q⌋
  else if 1 / 2 < q - ⌊q⌋ then ⌊q⌋ + 1
  else if ⌊q⌋ % 2 = 0 then ⌊q⌋ else ⌊q⌋ + 1

/-- Python substring test `needle in hay` (character lists). -/
def startsWithL : List Char → List Char → Bool
  | [], _ => true
  | _ :: _, [] => false
  | a :: as, b :: bs => a = b && startsWithL as bs

def containsSub (needle : List Char) : List Char → Bool
  | [] => needle.isEmpty
  | c :: rest => startsWithL needle (c :: rest) || containsSub needle rest

/-! ## Configuration constants (src/core/config.py) -/

def CURRENT_YEAR : Int := 2026

def VERIFIED_THRESHOLD : ℚ := 85

def PARTIAL_MATCH_THRESHOLD : ℚ := 70

/-- ATS_WEIGHTS["jd_skill_match"] -/
def W_JD_SKILL_MATCH : ℚ := 0.4
/-- ATS_WEIGHTS["verified_claims"] -/
def W_VERIFIED_CLAIMS : ℚ := 0.3
/-- ATS_WEIGHTS["resume_completeness"] -/
def W_RESUME_COMPLETENESS : ℚ := 0.2
/-- ATS_WEIGHTS["timeline_consistency"] -/
def W_TIMELINE_CONSISTENCY : ℚ := 0.1

/-! ## Technology normalization (src/verification/tech_consistency_checker.py) -/

/-- The `TECH_SYNONYMS` dictionary, in source order. -/
def TECH_SYNONYMS : List (String × String) :=
  [("js", "javascript"), ("ts", "typescript"), ("py", "python"),
   ("cpp", "c++"), ("c++", "cpp"), ("nodejs", "node"),
   ("react.js", "react"), ("vue.js", "vue"), ("django", "python"),
   ("flask", "python"), ("fastapi", "python"), ("express", "javascript"),
   ("neural networks", "deep learning"), ("keras", "tensorflow"),
   ("sklearn", "scikit-learn"), ("tf", "tensorflow"), ("pt", "pytorch")]

/-- First-match association-list lookup (Python dict lookup; the keys of
`TECH_SYNONYMS` are distinct, so first match is the dict entry). -/
def synLookup : List (String × String) → String → Option String
  | [], _ => none
  | (k, v) :: rest, s => if s = k then some v else synLookup rest s

/-- `TechConsistencyChecker.normalize_tech`: strip, lowercase, then apply
the synonym table. -/
def normalize_tech (tech : String) : String :=
  let tech_lower := pyLowerS (pyStripS tech)
  match synLookup TECH_SYNONYMS tech_lower with
  | some v => v
  | none => tech_lower

/-! ### Stability lemmas for strip/lower -/

theorem pyLowerChar_cases (c : Char) :
    pyLowerChar c = c ∨ pyLowerChar c ∈
      ['a', 'b', 'c', 'd', 'e', 'f', 'g', 'h', 'i', 'j', 'k', 'l', 'm',
       'n', 'o', 'p', 'q', 'r', 's', 't', 'u', 'v', 'w', 'x', 'y', 'z'] := by
  unfold pyLowerChar
  split <;> first | (left; rfl) | (right; decide)

theorem pyLowerChar_idem (c : Char) :
    pyLowerChar (pyLowerChar c) = pyLowerChar c := by
  rcases pyLowerChar_cases c with h | h
  · rw [h]; exact h
  · simp only [List.mem_cons, List.not_mem_nil, or_false] at h
    rcases h with h|h|h|h|h|h|h|h|h|h|h|h|h|h|h|h|h|h|h|h|h|h|h|h|h|h <;>
      rw [h] <;> decide

theorem pyLowerL_idem (l : List Char) : pyLowerL (pyLowerL l) = pyLowerL l := by
  simp [pyLowerL, List.map_map, Function.comp_def, pyLowerChar_idem]

theorem pyWs_pyLowerChar (c : Char) : pyWs (pyLowerChar c) = pyWs c := by
  unfold pyLowerChar
  split <;> rfl

theorem dropWhile_pyWs_pyLowerL (l : List Char) :
    (pyLowerL l).dropWhile pyWs = pyLowerL (l.dropWhile pyWs) := by
  induction l with
  | nil => rfl
  | cons c rest ih =>
    simp only [pyLowerL, List.map_cons, List.dropWhile_cons, pyWs_pyLowerChar]
    by_cases h : pyWs c = true
    · simpa [h, pyLowerL] using ih
    · simp [h]

theorem pyStripL_pyLowerL (l : List Char) :
    pyStripL (pyLowerL l) = pyLowerL (pyStripL l) := by
  simp only [pyStripL]
  rw [dropWhile_pyWs_pyLowerL]
  have hrev : (pyLowerL (l.dropWhile pyWs)).reverse
      = pyLowerL (l.dropWhile pyWs).reverse := by
    simp [pyLowerL, List.map_reverse]
  rw [hrev, dropWhile_pyWs_pyLowerL]
  simp [pyLowerL, List.map_reverse]

theorem dropWhile_pyWs_idem (l : List Char) :
    (l.dropWhile pyWs).dropWhile pyWs = l.dropWhile pyWs := by
  induction l with
  | nil => rfl
  | cons c rest ih =>
    by_cases h : pyWs c = true
    · simpa [List.dropWhile_cons, h] using ih
    · simp [List.dropWhile_cons, h]

/-- A list whose head survives `dropWhile pyWs` keeps that property on any
of its prefixes. -/
theorem dropWhile_pyWs_of_isPrefix {m m' : List Char}
    (hm : m.dropWhile pyWs = m) (hp : m' <+: m) :
    m'.dropWhile pyWs = m' := by
  cases m' with
  | nil => rfl
  | cons c rest =>
    cases m with
    | nil => simp at hp
    | cons d t =>
      have hcd : c = d := by
        rcases hp with ⟨u, hu⟩
        simpa using congrArg (fun x => x.head?) hu
      have hd : pyWs d = false := by
        by_cases hws : pyWs d = true
        · rw [List.dropWhile_cons_of_pos hws] at hm
          have h1 := congrArg List.length hm
          simp at h1
          have h2 := (List.dropWhile_suffix (l := t) (p := pyWs)).length_le
          omega
        · simpa using hws
      rw [hcd, List.dropWhile_cons_of_neg (by simp [hd])]

theorem stripRight_isPrefix (l : List Char) :
    (l.reverse.dropWhile pyWs).reverse <+: l := by
  rcases List.dropWhile_suffix (l := l.reverse) (p := pyWs) with ⟨u, hu⟩
  refine ⟨u.reverse, ?_⟩
  have := congrArg List.reverse hu
  simpa [List.reverse_append] using this

theorem pyStripL_idem (l : List Char) : pyStripL (pyStripL l) = pyStripL l := by
  unfold pyStripL
  set m := l.dropWhile pyWs with hm
  have hmfix : m.dropWhile pyWs = m := dropWhile_pyWs_idem l
  -- the inner strip's result is a prefix of m, hence already left-stripped
  have h1 : ((m.reverse.dropWhile pyWs).reverse).dropWhile pyWs
      = (m.reverse.dropWhile pyWs).reverse :=
    dropWhile_pyWs_of_isPrefix hmfix (stripRight_isPrefix m)
  rw [h1, List.reverse_reverse, dropWhile_pyWs_idem]

theorem pyStripS_pyLowerS_stable (s : String) :
    pyStripS (pyLowerS (pyStripS s)) = pyLowerS (pyStripS s) ∧
      pyLowerS (pyLowerS (pyStripS s)) = pyLowerS (pyStripS s) := by
  constructor
  · simp only [pyStripS, pyLowerS]
    exact congrArg String.mk (by rw [pyStripL_pyLowerL, pyStripL_idem])
  · simp only [pyStripS, pyLowerS]
    exact congrArg String.mk (pyLowerL_idem _)

/-! ### Claim C10: idempotence of `normalize_tech` -/

theorem synLookup_mem_values {l : List (String × String)} {s v : String}
    (h : synLookup l s = some v) : v ∈ l.map Prod.snd := by
  induction l with
  | nil => simp [synLookup] at h
  | cons kv rest ih =>
    obtain ⟨k, w⟩ := kv
    by_cases hk : s = k
    · simp [synLookup, hk] at h
      simp [h]
    · simp only [synLookup, if_neg hk] at h
      simpa using Or.inr (ih h)

theorem normalize_tech_fix_of_stable {u : String}
    (hs : pyLowerS (pyStripS u) = u)
    (hl : synLookup TECH_SYNONYMS u = none) :
    normalize_tech u = u := by
  unfold normalize_tech
  rw [hs]
  show (match synLookup TECH_SYNONYMS u with
        | some v => v
        | none => u) = u
  rw [hl]

/--
**Claim C10, counterexample.**  `normalize_tech` is not idempotent: the
synonym table maps `"cpp"` to `"c++"` and `"c++"` back to `"cpp"`, so the
two tokens never reach a common canonical form — a second normalization
pass undoes the first.
-/
theorem normalize_tech_not_idempotent_cpp :
    normalize_tech "cpp" = "c++" ∧ normalize_tech "c++" = "cpp" ∧
      normalize_tech (normalize_tech "cpp") ≠ normalize_tech "cpp" := by
  refine ⟨by decide, by decide, ?_⟩
  decide

/--
**Claim C10, amended.**  `normalize_tech` is idempotent on every input
except those normalizing into the two-element synonym cycle
`{"cpp", "c++"}`: for every string `t` with `normalize_tech t ∉
{"cpp", "c++"}`, a second normalization pass is the identity.
-/
theorem normalize_tech_idempotent_outside_cpp_cycle (t : String)
    (h1 : normalize_tech t ≠ "cpp") (h2 : normalize_tech t ≠ "c++") :
    normalize_tech (normalize_tech t) = normalize_tech t := by
  have hstab := pyStripS_pyLowerS_stable t
  have hnt : normalize_tech t =
      match synLookup TECH_SYNONYMS (pyLowerS (pyStripS t)) with
      | some v => v
      | none => pyLowerS (pyStripS t) := rfl
  cases hlook : synLookup TECH_SYNONYMS (pyLowerS (pyStripS t)) with
  | none =>
    have heq : normalize_tech t = pyLowerS (pyStripS t) := by rw [hnt, hlook]
    rw [heq]
    refine normalize_tech_fix_of_stable ?_ hlook
    rw [hstab.1, hstab.2]
  | some v =>
    have heq : normalize_tech t = v := by rw [hnt, hlook]
    rw [heq] at h1 h2 ⊢
    have hv := synLookup_mem_values hlook
    simp only [TECH_SYNONYMS, List.map_cons, List.map_nil, List.mem_cons,
      List.not_mem_nil, or_false] at hv
    rcases hv with h|h|h|h|h|h|h|h|h|h|h|h|h|h|h|h|h <;> subst h <;>
      first
        | decide
        | exact absurd rfl h1
        | exact absurd rfl h2

/--
Witness for C10 (amended): `"Py"` normalizes to `"python"`, outside the
cycle, and a second pass fixes it.
-/
theorem normalize_tech_idempotent_witness :
    normalize_tech (normalize_tech "Py") = normalize_tech "Py" :=
  normalize_tech_idempotent_outside_cpp_cycle "Py" (by decide) (by decide)

/-! ## Technology consistency check
(`TechConsistencyChecker.check_consistency`) -/

/-- One entry of the report's `verified_skills` list. -/
structure VerifiedSkill where
  skill : String
  found_in : String
  repo_count : Int
deriving DecidableEq

/-- One entry of the report's `partially_verified_skills` list. -/
structure PartialSkill where
  skill : String
  found_in : String
deriving DecidableEq

/-- Python dict assignment `d[k] = v`: overwrite in place, else append. -/
def dictSet (d : List (String × Int)) (k : String) (v : Int) :
    List (String × Int) :=
  match d with
  | [] => [(k, v)]
  | (k', v') :: rest =>
    if k' = k then (k', v) :: rest else (k', v') :: dictSet rest k v

/-- The dict comprehension `{normalize_tech(k): v for k, v in d.items()}`:
later entries whose keys normalize to the same token overwrite earlier
ones, as in Python. -/
def dictNormalize (d : List (String × Int)) : List (String × Int) :=
  d.foldl (fun acc kv => dictSet acc (normalize_tech kv.1) kv.2) []

/-- Python dict lookup `d[k]` / membership `k in d`. -/
def dictGet (d : List (String × Int)) (k : String) : Option Int :=
  match d with
  | [] => none
  | (k', v') :: rest => if k' = k then some v' else dictGet rest k

/-- The per-skill classification loop of `check_consistency`, over the
already-normalized claimed skills, producing the `verified_skills`,
`partially_verified_skills` and `unverified_skills` lists in claim order. -/
def classifySkills (demN : List (String × Int)) (projN workN : List String) :
    List String → List VerifiedSkill × List PartialSkill × List String
  | [] => ([], [], [])
  | s :: rest =>
    let vpu := classifySkills demN projN workN rest
    if s ∈ demN.map Prod.fst ∨ s ∈ projN ∨ s ∈ workN then
      match dictGet demN s with
      | some cnt => (⟨s, "github_repos", cnt⟩ :: vpu.1, vpu.2.1, vpu.2.2)
      | none =>
        if s ∈ projN then (vpu.1, ⟨s, "projects"⟩ :: vpu.2.1, vpu.2.2)
        else if s ∈ workN then
          (vpu.1, ⟨s, "work_experience"⟩ :: vpu.2.1, vpu.2.2)
        else (vpu.1, vpu.2.1, vpu.2.2)  -- unreachable: s is in the union
    else (vpu.1, vpu.2.1, s :: vpu.2.2)

/-- The result dict of `check_consistency`. -/
structure ConsistencyResult where
  verified_skills : List VerifiedSkill
  partially_verified_skills : List PartialSkill
  unverified_skills : List String
  undeclared_technologies : List String
  consistency_score : ℚ

/-- `TechConsistencyChecker.check_consistency`.  The `all_demonstrated`
set is modelled as a deduplicated list; Python's set iteration order is
unspecified, so only membership in `undeclared_technologies` is meaningful
(none of the downstream code depends on its order). -/
def check_consistency (claimed_skills : List String)
    (demonstrated_technologies : List (String × Int))
    (project_technologies work_technologies : List String) :
    ConsistencyResult :=
  let claimed_normalized := claimed_skills.map normalize_tech
  let demonstrated_normalized := dictNormalize demonstrated_technologies
  let project_normalized := project_technologies.map normalize_tech
  let work_normalized := work_technologies.map normalize_tech
  let vpu := classifySkills demonstrated_normalized project_normalized
    work_normalized claimed_normalized
  let all_demonstrated := (demonstrated_normalized.map Prod.fst ++
    project_normalized ++ work_normalized).dedup
  let total_claimed := claimed_normalized.length
  { verified_skills := vpu.1
    partially_verified_skills := vpu.2.1
    unverified_skills := vpu.2.2
    undeclared_technologies :=
      all_demonstrated.filter (fun t => t ∉ claimed_normalized)
    consistency_score :=
      if total_claimed > 0 then
        ((vpu.1.length : ℚ) * 100 + (vpu.2.1.length : ℚ) * 70) /
          ((total_claimed : ℚ) * 100)
      else 0 }

theorem check_consistency_verified_eq (claimed : List String)
    (dem : List (String × Int)) (proj work : List String) :
    (check_consistency claimed dem proj work).verified_skills =
      (classifySkills (dictNormalize dem) (proj.map normalize_tech)
        (work.map normalize_tech) (claimed.map normalize_tech)).1 := rfl

theorem check_consistency_partial_eq (claimed : List String)
    (dem : List (String × Int)) (proj work : List String) :
    (check_consistency claimed dem proj work).partially_verified_skills =
      (classifySkills (dictNormalize dem) (proj.map normalize_tech)
        (work.map normalize_tech) (claimed.map normalize_tech)).2.1 := rfl

theorem check_consistency_score_eq (claimed : List String)
    (dem : List (String × Int)) (proj work : List String) :
    (check_consistency claimed dem proj work).consistency_score =
      (if claimed.length > 0 then
        (((classifySkills (dictNormalize dem) (proj.map normalize_tech)
            (work.map normalize_tech) (claimed.map normalize_tech)).1.length : ℚ)
            * 100 +
          ((classifySkills (dictNormalize dem) (proj.map normalize_tech)
            (work.map normalize_tech) (claimed.map normalize_tech)).2.1.length : ℚ)
            * 70) / ((claimed.length : ℚ) * 100)
      else 0) := by
  have hlen : (claimed.map normalize_tech).length = claimed.length :=
    List.length_map _ _
  simp only [check_consistency, hlen]

/-- Each claimed skill lands in at most one of the verified/partial lists:
the two counters together never exceed the number of claimed skills. -/
theorem classifySkills_count_le (demN : List (String × Int))
    (projN workN : List String) (l : List String) :
    (classifySkills demN projN workN l).1.length +
      (classifySkills demN projN workN l).2.1.length ≤ l.length := by
  induction l with
  | nil => simp [classifySkills]
  | cons s rest ih =>
    simp only [classifySkills]
    split
    all_goals try split
    all_goals try split
    all_goals try split
    all_goals dsimp only
    all_goals simp only [List.length_cons]
    all_goals omega

/--
**Claim C5.**  For all inputs, `check_consistency` returns
`consistency_score = (100·verified + 70·partial) / (100·total_claimed)`
with the counts taken over the normalized claimed skills; the score always
lies in `[0, 1]`, and an empty claimed-skill list yields `0` rather than a
division error.
-/
theorem check_consistency_score_spec (claimed : List String)
    (dem : List (String × Int)) (proj work : List String) :
    ((check_consistency claimed dem proj work).consistency_score =
      if claimed.length = 0 then 0
      else (100 * ((check_consistency claimed dem proj work).verified_skills.length : ℚ) +
        70 * ((check_consistency claimed dem proj work).partially_verified_skills.length : ℚ)) /
        (100 * (claimed.length : ℚ))) ∧
    0 ≤ (check_consistency claimed dem proj work).consistency_score ∧
    (check_consistency claimed dem proj work).consistency_score ≤ 1 ∧
    (check_consistency [] dem proj work).consistency_score = 0 := by
  have hv := check_consistency_verified_eq claimed dem proj work
  have hp := check_consistency_partial_eq claimed dem proj work
  have hs := check_consistency_score_eq claimed dem proj work
  have hcount := classifySkills_count_le (dictNormalize dem)
    (proj.map normalize_tech) (work.map normalize_tech)
    (claimed.map normalize_tech)
  have hlen : (claimed.map normalize_tech).length = claimed.length :=
    List.length_map _ _
  rw [hlen] at hcount
  refine ⟨?_, ?_, ?_, ?_⟩
  · rw [hs, hv, hp]
    rcases Nat.eq_zero_or_pos claimed.length with h0 | hpos
    · simp [h0]
    · rw [if_pos hpos, if_neg (by omega)]
      ring
  · rw [hs]
    rcases Nat.eq_zero_or_pos claimed.length with h0 | hpos
    · simp [h0]
    · rw [if_pos hpos]
      apply div_nonneg
      · positivity
      · positivity
  · rw [hs]
    rcases Nat.eq_zero_or_pos claimed.length with h0 | hpos
    · simp [h0]
    · rw [if_pos hpos]
      rw [div_le_one (by positivity)]
      have h1 : ((classifySkills (dictNormalize dem) (proj.map normalize_tech)
          (work.map normalize_tech) (claimed.map normalize_tech)).1.length : ℚ) +
          ((classifySkills (dictNormalize dem) (proj.map normalize_tech)
          (work.map normalize_tech) (claimed.map normalize_tech)).2.1.length : ℚ) ≤
          (claimed.length : ℚ) := by
        exact_mod_cast hcount
      nlinarith [h1]
  · rw [check_consistency_score_eq []]
    simp

theorem dictGet_isSome_of_mem {d : List (String × Int)} {k : String}
    (h : k ∈ d.map Prod.fst) : ∃ v, dictGet d k = some v := by
  induction d with
  | nil => simp at h
  | cons kv rest ih =>
    obtain ⟨k', v'⟩ := kv
    by_cases hk : k' = k
    · exact ⟨v', by simp [dictGet, hk]⟩
    · simp only [List.map_cons, List.mem_cons] at h
      rcases h with h | h
      · exact absurd h.symm hk
      · obtain ⟨v, hv⟩ := ih h
        exact ⟨v, by simp [dictGet, hk, hv]⟩

/-- Appending one claimed skill that is a key of the normalized
demonstrated-technology dict adds exactly one verified entry and leaves
the partial count unchanged. -/
theorem classifySkills_append_dem (demN : List (String × Int))
    (projN workN : List String) (l : List String) (x : String)
    (hx : x ∈ demN.map Prod.fst) :
    (classifySkills demN projN workN (l ++ [x])).1.length =
      (classifySkills demN projN workN l).1.length + 1 ∧
    (classifySkills demN projN workN (l ++ [x])).2.1.length =
      (classifySkills demN projN workN l).2.1.length := by
  induction l with
  | nil =>
    obtain ⟨cnt, hc⟩ := dictGet_isSome_of_mem hx
    simp [classifySkills, hc, hx]
  | cons s rest ih =>
    obtain ⟨ih1, ih2⟩ := ih
    try simp only [List.append_eq] at ih1 ih2
    simp only [List.cons_append, classifySkills]
    split
    all_goals try split
    all_goals try split
    all_goals try split
    all_goals dsimp only
    all_goals simp only [List.length_cons, List.append_eq]
    all_goals omega

/--
**Claim C9.**  `check_consistency` is monotone in verified skills:
appending one more claimed skill whose normalized form is a key of the
(normalized) demonstrated-technology map never decreases the returned
`consistency_score`.
-/
theorem check_consistency_monotone (claimed : List String)
    (dem : List (String × Int)) (proj work : List String) (s : String)
    (h : normalize_tech s ∈ (dictNormalize dem).map Prod.fst) :
    (check_consistency claimed dem proj work).consistency_score ≤
      (check_consistency (claimed ++ [s]) dem proj work).consistency_score := by
  have hmap : (claimed ++ [s]).map normalize_tech =
      claimed.map normalize_tech ++ [normalize_tech s] := by simp
  obtain ⟨h1, h2⟩ := classifySkills_append_dem (dictNormalize dem)
    (proj.map normalize_tech) (work.map normalize_tech)
    (claimed.map normalize_tech) (normalize_tech s) h
  have hcount := classifySkills_count_le (dictNormalize dem)
    (proj.map normalize_tech) (work.map normalize_tech)
    (claimed.map normalize_tech)
  rw [check_consistency_score_eq, check_consistency_score_eq]
  rw [hmap] at *
  set vl := (classifySkills (dictNormalize dem) (proj.map normalize_tech)
    (work.map normalize_tech) (claimed.map normalize_tech)).1.length with hvl
  set pl := (classifySkills (dictNormalize dem) (proj.map normalize_tech)
    (work.map normalize_tech) (claimed.map normalize_tech)).2.1.length with hpl
  set n := claimed.length with hn
  have hlenmap : (claimed.map normalize_tech).length = n := by
    simp [hn]
  rw [hlenmap] at hcount
  have hlen2 : (claimed ++ [s]).length = n + 1 := by simp [hn]
  rw [hlen2, h1, h2]
  rcases Nat.eq_zero_or_pos n with h0 | hpos
  · rw [if_neg (by omega), if_pos (by omega)]
    apply div_nonneg
    · positivity
    · positivity
  · rw [if_pos hpos, if_pos (by omega)]
    rw [div_le_div_iff₀ (by positivity) (by positivity)]
    have hb : (vl : ℚ) + (pl : ℚ) ≤ (n : ℚ) := by exact_mod_cast hcount
    push_cast
    nlinarith [hb]

/--
Witness for C9: starting from no claimed skills and the demonstrated map
`{"Python": 3}`, appending the claimed skill `"Python"` does not decrease
the score.
-/
theorem check_consistency_monotone_witness :
    (check_consistency [] [("Python", 3)] [] []).consistency_score ≤
      (check_consistency ["Python"] [("Python", 3)] [] []).consistency_score := by
  have h := check_consistency_monotone [] [("Python", 3)] [] [] "Python"
    (by decide)
  simpa using h

/-! ## Timeline validation (src/verification/timeline_validator.py) -/

/-- The year scanner modelling `re.findall(r"20\d{2}", s)`: a left-to-right
non-overlapping scan for `2`, `0`, digit, digit. -/
def findYears : List Char → List Int
  | c1 :: c2 :: c3 :: c4 :: rest =>
    if c1 = '2' ∧ c2 = '0' ∧ c3.isDigit ∧ c4.isDigit then
      ((2000 + 10 * (c3.toNat - 48) + (c4.toNat - 48) : Nat) : Int) ::
        findYears rest
    else findYears (c2 :: c3 :: c4 :: rest)
  | _ => []

/-- One iteration of `parse_timeline`'s separator loop: split on `sep`,
parse the last four characters of the first part and the first four of the
second as integers; `none` when the separator is absent or `int()` raises. -/
def trySep (sep : Char) (t : List Char) : Option (Int × Int) :=
  if t.contains sep then
    match splitOnChar sep t with
    | p0 :: p1 :: _ =>
      match pyIntL (takeLast 4 (pyStripL p0)), pyIntL ((pyStripL p1).take 4) with
      | some a, some b => some (a, b)
      | _, _ => none
    | _ => none
  else none

/-- `TimelineValidator.parse_timeline`: `none` models the `(None, None)`
result.  Separators are tried in source order `-`, `–`, `—`; a failed
`int()` on a separator hit falls through to the next separator and finally
to the `20\d{2}` scan, exactly as the `try/except` loop does. -/
def parse_timeline (timeline_str : String) : Option (Int × Int) :=
  if timeline_str.data.isEmpty then none
  else
    match trySep '-' (pyStripL timeline_str.data) with
    | some r => some r
    | none =>
      match trySep '–' (pyStripL timeline_str.data) with
      | some r => some r
      | none =>
        match trySep '—' (pyStripL timeline_str.data) with
        | some r => some r
        | none =>
          match findYears (pyStripL timeline_str.data) with
          | y1 :: y2 :: _ => some (y1, y2)
          | [y] => some (y, CURRENT_YEAR)
          | [] => none

/-- A project entry of `extracted_data["projects"]` (the fields
`validate_overall_consistency` reads). -/
structure Project where
  name : String
  timeline : String
deriving DecidableEq

/-- A work-experience entry of `extracted_data["work_experience"]` (the
fields the timeline validator reads).  `end_year = none` models an absent
key, defaulted to `CURRENT_YEAR` by `.get`. -/
structure WorkExperience where
  company : String
  position : String
  start_year : Option Int
  end_year : Option Int
deriving DecidableEq

/-- One entry of the `all_timelines` list built by
`validate_overall_consistency` (`end` is a reserved word in Lean, hence
`endY`). -/
structure TimelineEntry where
  type_ : String
  name : String
  start : Int
  endY : Int
deriving DecidableEq

/-- The `all_timelines` list: projects with a truthy, parseable timeline
whose two years are truthy (non-zero), then work experiences with a truthy
`start_year`, `end_year` defaulting to `CURRENT_YEAR`. -/
def buildTimelineEntries (projects : List Project)
    (work_experiences : List WorkExperience) : List TimelineEntry :=
  (projects.filterMap fun p =>
    if p.timeline ≠ "" then
      match parse_timeline p.timeline with
      | some (s, e) =>
        if s ≠ 0 ∧ e ≠ 0 then some ⟨"project", p.name, s, e⟩ else none
      | none => none
    else none) ++
  (work_experiences.filterMap fun w =>
    match w.start_year with
    | some s =>
      if s ≠ 0 then
        some ⟨"work", w.company, s, w.end_year.getD CURRENT_YEAR⟩
      else none
    | none => none)

/-- One entry of `overlapping_periods`. -/
structure OverlapRecord where
  type1 : String
  type2 : String
  period : String
deriving DecidableEq

/-- The inclusive interval-overlap test
`t1["start"] <= t2["end"] and t2["start"] <= t1["end"]`. -/
def overlapTest (a b : TimelineEntry) : Bool :=
  a.start ≤ b.endY ∧ b.start ≤ a.endY

def mkOverlap (a b : TimelineEntry) : OverlapRecord :=
  { type1 := a.type_ ++ ": " ++ a.name
    type2 := b.type_ ++ ": " ++ b.name
    period := toString (max a.start b.start) ++ "-" ++
      toString (min a.endY b.endY) }

/-- The nested overlap loop (`for i, t1 in enumerate: for t2 in all[i+1:]`). -/
def overlapsLoop : List TimelineEntry → List OverlapRecord
  | [] => []
  | t1 :: rest =>
    (rest.filter (fun t2 => overlapTest t1 t2)).map (mkOverlap t1) ++
      overlapsLoop rest

/-- The key comparison `sorted(all_timelines, key=lambda x: x["start"])`
sorts by. -/
def startLE (a b : TimelineEntry) : Prop := a.start ≤ b.start

instance : DecidableRel startLE := fun a b => Int.decLe a.start b.start

instance : IsTotal TimelineEntry startLE := ⟨fun a b => le_total a.start b.start⟩

instance : IsTrans TimelineEntry startLE :=
  ⟨fun _ _ _ h1 h2 => le_trans h1 h2⟩

/-- The `overall` record returned by `validate_overall_consistency`. -/
structure OverallConsistency where
  total_timeline_entries : Nat
  overlapping_periods : List OverlapRecord
  is_chronological : Bool
  consistency_score : Int
deriving DecidableEq

/-- `TimelineValidator.validate_overall_consistency`.  Python's
`sorted(..., key=...)` is a stable sort by key; `List.insertionSort` with
the key comparison computes the same (unique) stable sort. -/
def validate_overall_consistency (projects : List Project)
    (work_experiences : List WorkExperience) : OverallConsistency :=
  let all_timelines := buildTimelineEntries projects work_experiences
  let overlaps := overlapsLoop all_timelines
  let sorted_timelines := all_timelines.insertionSort startLE
  { total_timeline_entries := all_timelines.length
    overlapping_periods := overlaps
    is_chronological := decide (sorted_timelines = all_timelines)
    consistency_score := max 0 (100 - (overlaps.length : Int) * 10) }

/-! ### Claim C8: totality and structure of `parse_timeline` -/

/-- Every year the `20\d{2}` scanner extracts lies in `[2000, 2099]`. -/
theorem findYears_range :
    ∀ (l : List Char), ∀ y ∈ findYears l, 2000 ≤ y ∧ y ≤ 2099 := by
  have main : ∀ (n : Nat) (l : List Char), l.length ≤ n →
      ∀ y ∈ findYears l, 2000 ≤ y ∧ y ≤ 2099 := by
    intro n
    induction n with
    | zero =>
      intro l hl y hy
      have hnil : l = [] := List.length_eq_zero.mp (Nat.le_zero.mp hl)
      subst hnil
      simp [findYears] at hy
    | succ n ih =>
      intro l hl y hy
      match l with
      | [] => simp [findYears] at hy
      | [c1] => simp [findYears] at hy
      | [c1, c2] => simp [findYears] at hy
      | [c1, c2, c3] => simp [findYears] at hy
      | c1 :: c2 :: c3 :: c4 :: rest =>
        rw [findYears] at hy
        by_cases hc : c1 = '2' ∧ c2 = '0' ∧ c3.isDigit ∧ c4.isDigit
        · rw [if_pos hc] at hy
          rcases List.mem_cons.mp hy with hy1 | hy2
          · obtain ⟨-, -, h3, h4⟩ := hc
            simp [Char.isDigit] at h3 h4
            have hb3 : 48 ≤ c3.toNat ∧ c3.toNat ≤ 57 := h3
            have hb4 : 48 ≤ c4.toNat ∧ c4.toNat ≤ 57 := h4
            subst hy1
            omega
          · refine ih rest ?_ y hy2
            simp only [List.length_cons] at hl
            omega
        · rw [if_neg hc] at hy
          refine ih (c2 :: c3 :: c4 :: rest) ?_ y hy
          simp only [List.length_cons] at hl ⊢
          omega
  intro l
  exact main l.length l le_rfl

theorem trySep_not_contains {sep : Char} {t : List Char}
    (h : t.contains sep = false) : trySep sep t = none := by
  have h' : ¬ sep ∈ t := by simpa using h
  simp [trySep, h']

/-- On inputs with none of the three separators, `parse_timeline` is
exactly the `20\d{2}` fallback. -/
theorem parse_timeline_no_sep (s : String)
    (h1 : (pyStripL s.data).contains '-' = false)
    (h2 : (pyStripL s.data).contains '–' = false)
    (h3 : (pyStripL s.data).contains '—' = false) :
    parse_timeline s =
      match findYears (pyStripL s.data) with
      | y1 :: y2 :: _ => some (y1, y2)
      | [y] => some (y, CURRENT_YEAR)
      | [] => none := by
  unfold parse_timeline
  by_cases he : s.data.isEmpty
  · rw [if_pos he]
    have hnil : s.data = [] := by simpa using he
    rw [hnil]
    rfl
  · rw [if_neg he]
    rw [trySep_not_contains h1, trySep_not_contains h2, trySep_not_contains h3]

/--
**Claim C8, counterexample.**  `parse_timeline` does **not** extract
arbitrary 4-digit years in its fallback: its scan matches only `20\d{2}`.
`"1998 1999"` contains two 4-digit years, yet the result is the null
sentinel rather than `(1998, 1999)`.
-/
theorem parse_timeline_pre2000_counterexample :
    parse_timeline "1998 1999" = none ∧
      parse_timeline "1998 1999" ≠ some (1998, 1999) := by
  constructor <;> decide

/--
**Claim C8, amended.**  `parse_timeline` is total and never raises.  On a
string containing a supported separator (`-`, `–`, `—`) between two
years it returns the pair (concrete families below); when no separator
parse succeeds it falls back to scanning for years matching `20\d{2}`
(years 2000–2099 only — not arbitrary 4-digit years): two or more matches
give the first two, exactly one gives `(year, CURRENT_YEAR)` with
`CURRENT_YEAR` the configured constant 2026, and no match gives the null
sentinel.
-/
theorem parse_timeline_spec_amended :
    (∀ s : String,
      (pyStripL s.data).contains '-' = false →
      (pyStripL s.data).contains '–' = false →
      (pyStripL s.data).contains '—' = false →
      parse_timeline s =
        match findYears (pyStripL s.data) with
        | y1 :: y2 :: _ => some (y1, y2)
        | [y] => some (y, CURRENT_YEAR)
        | [] => none) ∧
    (∀ (l : List Char), ∀ y ∈ findYears l, 2000 ≤ y ∧ y ≤ 2099) ∧
    parse_timeline "2021-2022" = some (2021, 2022) ∧
    parse_timeline "2021 - 2022" = some (2021, 2022) ∧
    parse_timeline "2021 – 2023" = some (2021, 2023) ∧
    parse_timeline "2020—2021" = some (2020, 2021) ∧
    parse_timeline "Summer 2019" = some (2019, CURRENT_YEAR) ∧
    parse_timeline "n/a" = none := by
  refine ⟨parse_timeline_no_sep, findYears_range, ?_, ?_, ?_, ?_, ?_, ?_⟩ <;>
    decide

/--
Witness for C8 (amended), exercising the separator-free fallback clause
at a concrete input: no `-`/`–`/`—` occurs, the scan finds `2019` and
`2021`, and the theorem forces exactly that pair.
-/
theorem parse_timeline_spec_amended_witness :
    parse_timeline "from 2019 to 2021" = some (2019, 2021) := by
  have h := parse_timeline_spec_amended.1 "from 2019 to 2021"
    (by decide) (by decide) (by decide)
  exact h.trans (by decide)

/-! ### Claim C6: overall timeline consistency -/

/-- All index-ordered pairs `(i, j)`, `i < j`, of a list. -/
def pairsList : List TimelineEntry → List (TimelineEntry × TimelineEntry)
  | [] => []
  | x :: xs => (xs.map fun y => (x, y)) ++ pairsList xs

theorem overlapsLoop_length (l : List TimelineEntry) :
    (overlapsLoop l).length =
      (pairsList l).countP fun ab => overlapTest ab.1 ab.2 := by
  induction l with
  | nil => simp [overlapsLoop, pairsList]
  | cons x xs ih =>
    simp only [overlapsLoop, pairsList, List.length_append, List.length_map,
      List.countP_append, ih]
    congr 1
    rw [List.countP_map, ← List.countP_eq_length_filter]
    rfl

theorem insertionSort_startLE_eq_self_iff (l : List TimelineEntry) :
    l.insertionSort startLE = l ↔ l.Sorted startLE := by
  constructor
  · intro h
    rw [← h]
    exact List.sorted_insertionSort startLE l
  · exact List.Sorted.insertionSort_eq

/--
**Claim C6.**  `validate_overall_consistency` builds one interval list
from projects and work experiences, reports every index-ordered pair
satisfying the inclusive test `a.start ≤ b.end ∧ b.start ≤ a.end`
regardless of entry type, sets `is_chronological` iff the stable sort by
start year reproduces the input order (equivalently, iff the list is
already non-decreasing by start year), and returns `consistency_score =
max 0 (100 − 10·overlap_count)`; for the two project intervals
`2021-2022` and `2022-2023` exactly one overlap pair is reported and the
score is 90.
-/
theorem validate_overall_consistency_spec (ps : List Project)
    (ws : List WorkExperience) :
    ((validate_overall_consistency ps ws).consistency_score =
      max 0 (100 - 10 *
        ((validate_overall_consistency ps ws).overlapping_periods.length : Int))) ∧
    ((validate_overall_consistency ps ws).overlapping_periods.length =
      (pairsList (buildTimelineEntries ps ws)).countP
        fun ab => overlapTest ab.1 ab.2) ∧
    ((validate_overall_consistency ps ws).is_chronological = true ↔
      (buildTimelineEntries ps ws).Sorted startLE) ∧
    (validate_overall_consistency
      [⟨"Project A", "2021-2022"⟩, ⟨"Project B", "2022-2023"⟩]
      []).overlapping_periods.length = 1 ∧
    (validate_overall_consistency
      [⟨"Project A", "2021-2022"⟩, ⟨"Project B", "2022-2023"⟩]
      []).consistency_score = 90 := by
  refine ⟨?_, ?_, ?_, by decide, by decide⟩
  · simp only [validate_overall_consistency]
    ring_nf
  · simp only [validate_overall_consistency]
    exact overlapsLoop_length _
  · simp only [validate_overall_consistency, decide_eq_true_eq]
    exact insertionSort_startLE_eq_self_iff _

/-! ## Verification engine (src/verification/verification_engine.py) and
red-flag synthesis (src/scoring/scoring_utils.py) -/

/-- The `user_profile` dict returned by `verify_user_exists`
(github_agent / kaggle_agent): `existsFlag = some true` is a confirmed
profile (HTTP 200), `some false` a confirmed absence (HTTP 404), and
`none` models Python `None` — evidence unavailable (network error,
timeout, non-404 error status). -/
structure UserProfile where
  existsFlag : Option Bool
deriving DecidableEq

/-- One per-source verification result (the `user_profile` field is all
the downstream code reads). -/
structure SourceVerification where
  user_profile : UserProfile
deriving DecidableEq

structure RedFlag where
  type_ : String
  severity : String
  description : String
deriving DecidableEq

/-- The `tech_consistency` stage result. -/
structure TechConsistencyStage where
  consistency_report : ConsistencyResult
  red_flags : List RedFlag

/-- A per-project / per-employment timeline validation record; only
`verified` (and `status` for display) are read downstream. -/
structure TimelineRecord where
  status : String
  verified : Bool
deriving DecidableEq

/-- The `timeline_validity` stage result. -/
structure TimelineValidity where
  project_timelines : List TimelineRecord
  work_timelines : List TimelineRecord
  overall_consistency : Option OverallConsistency

/-- The `verification_results` dict assembled by `verify_all_claims`;
each stage is `none` when it did not run (the dict holds `None`). -/
structure VerificationResults where
  github_verification : Option SourceVerification
  kaggle_verification : Option SourceVerification
  tech_consistency : Option TechConsistencyStage
  timeline_validity : Option TimelineValidity

/-- An input claim (the fields `_evaluate_single_claim` reads). -/
structure Claim where
  claim : String
  id : Option String
  claim_type : String
  value : String
deriving DecidableEq

/-- A per-claim verdict, as produced by `_evaluate_single_claim` and
consumed by the scorers. -/
structure ClaimResult where
  claim : String
  claim_id : Option String
  claim_type : String
  value : String
  status : String
  trust_score : Int
  evidence : List String
  reasoning : String
deriving DecidableEq

/-- The `extracted_data` fields `_evaluate_single_claim` reads; `none`
models a missing or empty (falsy) username. -/
structure ExtractedFlags where
  github_username : Option String
  kaggle_username : Option String
deriving DecidableEq

/-- `VerificationEngine._generate_reasoning`. -/
def generate_reasoning (status : String) (score : Int)
    (evidence : List String) : String :=
  if status = "verified" then
    "Claim verified with " ++ toString score ++ "% confidence. " ++
      String.intercalate " " evidence
  else if status = "partially_verified" then
    "Claim partially verified (" ++ toString score ++ "% confidence). " ++
      String.intercalate " " evidence
  else
    "Insufficient evidence to verify claim (" ++ toString score ++
      "% confidence). " ++
      (if evidence.isEmpty then "No supporting evidence found."
       else String.intercalate " " evidence)

/-- The empty `consistency_report`, the `.get(..., {})` default. -/
def emptyConsistencyResult : ConsistencyResult := ⟨[], [], [], [], 0⟩

/-- `verification_results.get("tech_consistency", {})
.get("consistency_report", {})`. -/
def reportOf (vr : VerificationResults) : ConsistencyResult :=
  match vr.tech_consistency with
  | some tc => tc.consistency_report
  | none => emptyConsistencyResult

/-- `verification_results.get("timeline_validity", {})
.get("project_timelines", [])`. -/
def projTimelinesOf (vr : VerificationResults) : List TimelineRecord :=
  match vr.timeline_validity with
  | some t => t.project_timelines
  | none => []

/-- `VerificationEngine._evaluate_single_claim`.  The two skill-match
loops run in sequence: a verified hit is recorded first, then the
partial loop may overwrite status and score (the two lists are disjoint
for reports built by `check_consistency`, so the overwrite never fires
in the pipeline).  In the unreachable configuration "username present
but its verification stage absent" (the orchestrator always runs the
stage when the username is truthy) the source would raise; it is
modelled as the claim staying unverified. -/
def evaluate_single_claim (claim : Claim) (extracted : ExtractedFlags)
    (vr : VerificationResults) : ClaimResult :=
  let base : ClaimResult :=
    { claim := claim.claim, claim_id := claim.id,
      claim_type := claim.claim_type, value := claim.value,
      status := "unverified", trust_score := 0, evidence := [],
      reasoning := "" }
  let result :=
    if claim.claim_type = "skill_match" then
      let rep := reportOf vr
      let vfound := rep.verified_skills.find?
        (fun v => v.skill = pyLowerS claim.value)
      let pfound := rep.partially_verified_skills.find?
        (fun p => p.skill = pyLowerS claim.value)
      let afterV :=
        match vfound with
        | some v =>
          { base with
            status := "verified"
            trust_score := 95
            evidence := base.evidence ++ ["Found in " ++ v.found_in] }
        | none => base
      let afterP :=
        match pfound with
        | some p =>
          { afterV with
            status := "partially_verified"
            trust_score := 70
            evidence := afterV.evidence ++ ["Found in " ++ p.found_in] }
        | none => afterV
      if afterP.status = "unverified" then
        { afterP with
          trust_score := 30
          evidence := afterP.evidence ++
            ["Not found in GitHub, projects, or work experience"] }
      else afterP
    else if claim.claim_type = "link_verification" then
      if extracted.github_username.isSome ∧
          containsSub "github".data (pyLowerS claim.value).data then
        match vr.github_verification with
        | some gh =>
          if gh.user_profile.existsFlag = some true then
            { base with
              status := "verified"
              trust_score := 100
              evidence := ["GitHub profile verified"] }
          else base
        | none => base
      else if extracted.kaggle_username.isSome ∧
          containsSub "kaggle".data (pyLowerS claim.value).data then
        match vr.kaggle_verification with
        | some kg =>
          if kg.user_profile.existsFlag = some true then
            { base with
              status := "verified"
              trust_score := 100
              evidence := ["Kaggle profile verified"] }
          else base
        | none => base
      else base
    else if claim.claim_type = "numeric" then
      { base with
        trust_score := 50
        evidence := ["Numeric claim extracted from resume"] }
    else if claim.claim_type = "timeline" then
      match (projTimelinesOf vr).find? (fun p => p.verified) with
      | some _ => { base with status := "verified", trust_score := 90 }
      | none => base
    else base
  { result with
    reasoning := generate_reasoning result.status result.trust_score
      result.evidence }

/-- `generate_red_flag_report` (src/scoring/scoring_utils.py).  The
condition for the "missing profile" flags is Python truthiness
`not .get("user_profile", {}).get("exists")`, which fires whenever the
tri-state existence flag is anything other than `True`. -/
def generate_red_flag_report (vr : VerificationResults) : List RedFlag :=
  (match vr.tech_consistency with
   | some tc => tc.red_flags
   | none => []) ++
  (match vr.github_verification with
   | some g =>
     if g.user_profile.existsFlag ≠ some true then
       [⟨"missing_github", "high",
         "GitHub username provided but profile not found"⟩]
     else []
   | none => []) ++
  (match vr.kaggle_verification with
   | some k =>
     if k.user_profile.existsFlag ≠ some true then
       [⟨"missing_kaggle", "high",
         "Kaggle username provided but profile not found"⟩]
     else []
   | none => [])

/-! ### Claims C3, C7, C4 -/

theorem mem_map_of_find?_eq_some {α β : Type} [DecidableEq β] {f : α → β}
    {l : List α} {b : β} {x : α}
    (h : l.find? (fun a => f a = b) = some x) : b ∈ l.map f := by
  have hx := List.mem_of_find?_eq_some h
  have hpx := List.find?_some h
  simp only [decide_eq_true_eq] at hpx
  exact List.mem_map.mpr ⟨x, hx, hpx⟩

theorem not_mem_map_of_find?_eq_none {α β : Type} [DecidableEq β] {f : α → β}
    {l : List α} {b : β}
    (h : l.find? (fun a => f a = b) = none) : b ∉ l.map f := by
  intro hb
  obtain ⟨x, hx, hfx⟩ := List.mem_map.mp hb
  have hfalse := List.find?_eq_none.mp h x hx
  simp [hfx] at hfalse

/--
**Claim C3, counterexample.**  The orchestrator looks up the claim's
**lowercased** value, not its synonym-normalized form: with claimed skill
`"js"` and demonstrated technology `"javascript"`, the Consistency
Analyzer's verified set holds `"javascript"` (the normalized form of the
claim value `"JS"`), yet the skill_match claim stays unverified with
score 30 because `"js" ≠ "javascript"`.
-/
theorem evaluate_skill_match_no_normalization :
    normalize_tech "JS" = "javascript" ∧
    (check_consistency ["js"] [("javascript", 1)] [] []).verified_skills.map
      VerifiedSkill.skill = ["javascript"] ∧
    (evaluate_single_claim ⟨"Knows JS", none, "skill_match", "JS"⟩ ⟨none, none⟩
      ⟨none, none,
        some ⟨check_consistency ["js"] [("javascript", 1)] [] [], []⟩,
        none⟩).status = "unverified" ∧
    (evaluate_single_claim ⟨"Knows JS", none, "skill_match", "JS"⟩ ⟨none, none⟩
      ⟨none, none,
        some ⟨check_consistency ["js"] [("javascript", 1)] [] [], []⟩,
        none⟩).trust_score = 30 := by
  refine ⟨by decide, by decide, by decide, by decide⟩

/--
**Claim C3, amended.**  For a skill_match claim the orchestrator looks up
the claim value **lowercased only** (no synonym normalization) in the
Consistency Analyzer's verified and partially-verified sets: a hit in the
partially-verified set gives status partially_verified with score 70
(this lookup runs second and overwrites a verified hit, though the two
sets are disjoint for reports built by `check_consistency`), otherwise a
hit in the verified set gives status verified with score 95, otherwise
the claim stays unverified with score 30.
-/
theorem evaluate_skill_match_spec (name : String) (cid : Option String)
    (value : String) (ex : ExtractedFlags) (vr : VerificationResults) :
    ((evaluate_single_claim ⟨name, cid, "skill_match", value⟩ ex vr).status,
      (evaluate_single_claim ⟨name, cid, "skill_match", value⟩ ex
        vr).trust_score) =
      (if pyLowerS value ∈
          (reportOf vr).partially_verified_skills.map PartialSkill.skill then
        ("partially_verified", (70 : Int))
      else if pyLowerS value ∈
          (reportOf vr).verified_skills.map VerifiedSkill.skill then
        ("verified", 95)
      else ("unverified", 30)) := by
  cases hv : (reportOf vr).verified_skills.find?
      (fun v => v.skill = pyLowerS value) with
  | none =>
    cases hp : (reportOf vr).partially_verified_skills.find?
        (fun p => p.skill = pyLowerS value) with
    | none =>
      rw [if_neg (not_mem_map_of_find?_eq_none hp),
        if_neg (not_mem_map_of_find?_eq_none hv)]
      simp [evaluate_single_claim, hv, hp]
    | some p =>
      rw [if_pos (mem_map_of_find?_eq_some hp)]
      simp [evaluate_single_claim, hv, hp]
  | some v =>
    cases hp : (reportOf vr).partially_verified_skills.find?
        (fun p => p.skill = pyLowerS value) with
    | none =>
      rw [if_neg (not_mem_map_of_find?_eq_none hp),
        if_pos (mem_map_of_find?_eq_some hv)]
      simp [evaluate_single_claim, hv, hp]
    | some p =>
      rw [if_pos (mem_map_of_find?_eq_some hp)]
      simp [evaluate_single_claim, hv, hp]

/--
**Claim C7, counterexample.**  A timeline claim is **not** verified by a
matching employment record: with no project records and one work record
with `verified = true`, the claim stays unverified with score 0.
-/
theorem evaluate_timeline_ignores_work :
    ((⟨[], [⟨"verified", true⟩], none⟩ :
      TimelineValidity).work_timelines.any (fun r => r.verified)) = true ∧
    (evaluate_single_claim ⟨"Built X in 2020-2021", none, "timeline",
      "2020-2021"⟩ ⟨none, none⟩
      ⟨none, none, none, some ⟨[], [⟨"verified", true⟩], none⟩⟩).status =
      "unverified" ∧
    (evaluate_single_claim ⟨"Built X in 2020-2021", none, "timeline",
      "2020-2021"⟩ ⟨none, none⟩
      ⟨none, none, none,
        some ⟨[], [⟨"verified", true⟩], none⟩⟩).trust_score = 0 := by
  refine ⟨by decide, by decide, by decide⟩

/--
**Claim C7, amended.**  For a timeline claim the orchestrator consults
only the Timeline Analyzer's **project** records, with no per-claim
matching: if any project record has `verified = true` the claim is
verified with trust score 90, otherwise it stays unverified with score 0;
employment (work) records and the claim's own value play no role.
-/
theorem evaluate_timeline_spec (name : String) (cid : Option String)
    (value : String) (ex : ExtractedFlags) (vr : VerificationResults) :
    ((evaluate_single_claim ⟨name, cid, "timeline", value⟩ ex vr).status,
      (evaluate_single_claim ⟨name, cid, "timeline", value⟩ ex
        vr).trust_score) =
      (if (projTimelinesOf vr).any (fun p => p.verified) then
        ("verified", (90 : Int))
      else ("unverified", 0)) := by
  cases hf : (projTimelinesOf vr).find? (fun p => p.verified) with
  | none =>
    have hany : (projTimelinesOf vr).any (fun p => p.verified) = false := by
      rw [Bool.eq_false_iff]
      intro hcontra
      obtain ⟨x, hx, hpx⟩ := List.any_eq_true.mp hcontra
      have := List.find?_eq_none.mp hf x hx
      simp_all
    rw [hany]
    simp [evaluate_single_claim, hf]
  | some p =>
    have hany : (projTimelinesOf vr).any (fun p => p.verified) = true := by
      refine List.any_eq_true.mpr ⟨p, List.mem_of_find?_eq_some hf, ?_⟩
      exact List.find?_some hf
    rw [hany]
    simp [evaluate_single_claim, hf]

/--
**Claim C4** (code bug).  `generate_red_flag_report` appends the
high-severity `missing_github` flag via the truthiness test
`not ....get("exists")`, which fires for `exists = False` **and** for
`exists = None` (evidence unavailable — network error or timeout, which
`verify_user_exists` deliberately distinguishes from a 404).  The
unknown state is thereby coerced to "profile claimed but not found",
contradicting the tri-state design: below, a checked GitHub identity
whose existence is unknown produces the same flag as a confirmed
absence, while only a confirmed profile produces none.
-/
theorem generate_red_flag_report_unknown_flagged :
    generate_red_flag_report ⟨some ⟨⟨some false⟩⟩, none, none, none⟩ =
      [⟨"missing_github", "high",
        "GitHub username provided but profile not found"⟩] ∧
    generate_red_flag_report ⟨some ⟨⟨none⟩⟩, none, none, none⟩ =
      [⟨"missing_github", "high",
        "GitHub username provided but profile not found"⟩] ∧
    generate_red_flag_report ⟨some ⟨⟨some true⟩⟩, none, none, none⟩ = [] := by
  refine ⟨by decide, by decide, by decide⟩

/-! ## Trust scorer (src/scoring/trust_scorer.py) -/

/-- A claim scored by `TrustScorer.score_claim` (the nested summary and
percentage dicts of the final report are flattened into fields). -/
structure ScoredClaim where
  claim : String
  claim_id : Option String
  claim_type : String
  status : String
  trust_score : Int
  confidence : String
  label : String
  evidence : List String
  reasoning : String
deriving DecidableEq

/-- `TrustScorer.score_claim`. -/
def score_claim (c : ClaimResult) : ScoredClaim :=
  { claim := c.claim
    claim_id := c.claim_id
    claim_type := c.claim_type
    status := c.status
    trust_score := c.trust_score
    confidence :=
      if (c.trust_score : ℚ) ≥ VERIFIED_THRESHOLD then "High"
      else if (c.trust_score : ℚ) ≥ PARTIAL_MATCH_THRESHOLD then "Medium"
      else if (c.trust_score : ℚ) ≥ 40 then "Low"
      else "Very Low"
    label :=
      if (c.trust_score : ℚ) ≥ VERIFIED_THRESHOLD then "✅ Verified"
      else if (c.trust_score : ℚ) ≥ PARTIAL_MATCH_THRESHOLD then
        "⚠️ Partially Verified"
      else if (c.trust_score : ℚ) ≥ 40 then "❓ Unverified"
      else "🚩 Flagged"
    evidence := c.evidence
    reasoning := c.reasoning }

/-- `TrustScorer._generate_overall_reasoning`. -/
def generate_overall_reasoning (score : ℚ) (scored : List ScoredClaim) :
    String :=
  if score ≥ VERIFIED_THRESHOLD then
    "Candidate claims are well-supported by external verification sources. High confidence in resume authenticity."
  else if score ≥ PARTIAL_MATCH_THRESHOLD then
    if (scored.filter fun c =>
        c.status = "unverified" ∨ c.status = "flagged").length ≠ 0 then
      "Most claims verified, but " ++
        toString (scored.filter fun c =>
          c.status = "unverified" ∨ c.status = "flagged").length ++
        " claims lack supporting evidence. Recommend human review of flagged items."
    else
      "Generally trustworthy with some unverified claims. External verification sources partially confirm resume content."
  else if score ≥ 50 then
    "Multiple claims (" ++
      toString (scored.filter fun c =>
        c.status = "unverified" ∨ c.status = "flagged").length ++
      ") lack verification. Significant inconsistencies detected. Recommend detailed interview validation."
  else
    "Low overall trustworthiness. Many claims unverified or contradicted by external sources. Recommend rejecting or detailed verification interview."

/-- The aggregate report of `TrustScorer.score_all_claims` (summary and
percentage sub-dicts flattened). -/
structure TrustReport where
  overall_trust_score : Int
  overall_label : String
  total_claims : Nat
  verified : Nat
  partially_verified : Nat
  unverified : Nat
  flagged : Nat
  pct_verified : Int
  pct_partially_verified : Int
  pct_unverified : Int
  pct_flagged : Int
  scored_claims : List ScoredClaim
  reasoning : String

/-- `TrustScorer.score_all_claims`. -/
def score_all_claims (claim_results : List ClaimResult) : TrustReport :=
  let scored := claim_results.map score_claim
  let verified_count := scored.countP (fun c => c.status = "verified")
  let partial_count := scored.countP (fun c => c.status = "partially_verified")
  let unverified_count := scored.countP (fun c => c.status = "unverified")
  let flagged_count := scored.countP (fun c => (c.trust_score : ℚ) < 40)
  let total := scored.length
  let overall_score : ℚ :=
    if total > 0 then
      (scored.map (fun c => (c.trust_score : ℚ))).sum / (total : ℚ)
    else 0
  { overall_trust_score := pyRound overall_score
    overall_label :=
      if overall_score ≥ VERIFIED_THRESHOLD then "✅ Highly Trustworthy"
      else if overall_score ≥ PARTIAL_MATCH_THRESHOLD then
        "⚠️ Partially Trustworthy"
      else if overall_score ≥ 50 then "❓ Moderately Trustworthy"
      else "🚩 Low Trustworthiness"
    total_claims := total
    verified := verified_count
    partially_verified := partial_count
    unverified := unverified_count
    flagged := flagged_count
    pct_verified :=
      if total > 0 then pyRound ((verified_count : ℚ) / total * 100) else 0
    pct_partially_verified :=
      if total > 0 then pyRound ((partial_count : ℚ) / total * 100) else 0
    pct_unverified :=
      if total > 0 then pyRound ((unverified_count : ℚ) / total * 100) else 0
    pct_flagged :=
      if total > 0 then pyRound ((flagged_count : ℚ) / total * 100) else 0
    scored_claims := scored
    reasoning := generate_overall_reasoning overall_score scored }

/-- The unweighted arithmetic mean of the per-claim trust scores, as the
spec describes it (`0` on the empty list). -/
def meanTrust (claim_results : List ClaimResult) : ℚ :=
  if claim_results.length > 0 then
    (claim_results.map (fun c => (c.trust_score : ℚ))).sum /
      (claim_results.length : ℚ)
  else 0

/-! ### Claim C2: the trust aggregate -/

theorem pyRound_nonneg {q : ℚ} (h : 0 ≤ q) : 0 ≤ pyRound q := by
  unfold pyRound
  have hf : (0 : ℤ) ≤ ⌊q⌋ := Int.floor_nonneg.mpr h
  split_ifs <;> omega

theorem pyRound_le {q : ℚ} {n : ℤ} (h : q ≤ (n : ℚ)) : pyRound q ≤ n := by
  unfold pyRound
  have hfl : ⌊q⌋ ≤ n := by
    calc ⌊q⌋ ≤ ⌊(n : ℚ)⌋ := Int.floor_le_floor h
    _ = n := Int.floor_intCast n
  split_ifs with h1 h2 h3
  · exact hfl
  · have hq : (⌊q⌋ : ℚ) + 1 / 2 < q := by linarith
    have hlt : (⌊q⌋ : ℚ) < (n : ℚ) := by linarith
    have : ⌊q⌋ < n := by exact_mod_cast hlt
    omega
  · exact hfl
  · have hq : (⌊q⌋ : ℚ) + 1 / 2 ≤ q := by linarith
    have hlt : (⌊q⌋ : ℚ) < (n : ℚ) := by linarith
    have : ⌊q⌋ < n := by exact_mod_cast hlt
    omega

theorem sum_trustQ_bounds (l : List ClaimResult)
    (h : ∀ c ∈ l, 0 ≤ c.trust_score ∧ c.trust_score ≤ 100) :
    0 ≤ (l.map (fun c => (c.trust_score : ℚ))).sum ∧
      (l.map (fun c => (c.trust_score : ℚ))).sum ≤ 100 * (l.length : ℚ) := by
  induction l with
  | nil => simp
  | cons c rest ih =>
    obtain ⟨h1, h2⟩ := h c (by simp)
    have hr := ih (fun x hx => h x (by simp [hx]))
    have hc1 : (0 : ℚ) ≤ (c.trust_score : ℚ) := by exact_mod_cast h1
    have hc2 : (c.trust_score : ℚ) ≤ 100 := by exact_mod_cast h2
    simp only [List.map_cons, List.sum_cons, List.length_cons]
    push_cast
    constructor
    · linarith [hr.1]
    · linarith [hr.2]

theorem score_all_claims_score_eq (l : List ClaimResult) :
    (score_all_claims l).overall_trust_score = pyRound (meanTrust l) := by
  have hmap : (l.map score_claim).map (fun c => (c.trust_score : ℚ)) =
      l.map (fun c => (c.trust_score : ℚ)) := by
    rw [List.map_map]; rfl
  have hlen : (l.map score_claim).length = l.length := List.length_map _ _
  simp only [score_all_claims, meanTrust, hmap, hlen]

theorem score_all_claims_label_eq (l : List ClaimResult) :
    (score_all_claims l).overall_label =
      (if meanTrust l ≥ 85 then "✅ Highly Trustworthy"
       else if meanTrust l ≥ 70 then "⚠️ Partially Trustworthy"
       else if meanTrust l ≥ 50 then "❓ Moderately Trustworthy"
       else "🚩 Low Trustworthiness") := by
  have hmap : (l.map score_claim).map (fun c => (c.trust_score : ℚ)) =
      l.map (fun c => (c.trust_score : ℚ)) := by
    rw [List.map_map]; rfl
  have hlen : (l.map score_claim).length = l.length := List.length_map _ _
  simp only [score_all_claims, meanTrust, hmap, hlen, VERIFIED_THRESHOLD,
    PARTIAL_MATCH_THRESHOLD]

/--
**Claim C2, counterexample.**  `score_all_claims` returns the
**banker's-rounded** mean, not the mean itself, and the label bands are
applied to the unrounded mean: verdict scores `[95, 70]` have mean
`82.5` but the report's `overall_trust_score` is `82`; scores
`[84, 85, 85, 85]` have mean `84.75`, the report says `85` yet the label
is "partially trustworthy" — so neither "score = mean" nor "label ≥ 85
iff returned score ≥ 85" holds as claimed.
-/
theorem score_all_claims_mean_counterexample :
    (score_all_claims
      [⟨"a", none, "skill_match", "python", "verified", 95, [], ""⟩,
       ⟨"b", none, "skill_match", "aws", "partially_verified", 70, [], ""⟩]
      ).overall_trust_score = 82 ∧
    meanTrust
      [⟨"a", none, "skill_match", "python", "verified", 95, [], ""⟩,
       ⟨"b", none, "skill_match", "aws", "partially_verified", 70, [], ""⟩]
      = 165 / 2 ∧
    ((82 : ℚ) ≠ 165 / 2) ∧
    (score_all_claims
      [⟨"a", none, "numeric", "1", "verified", 84, [], ""⟩,
       ⟨"b", none, "numeric", "2", "verified", 85, [], ""⟩,
       ⟨"c", none, "numeric", "3", "verified", 85, [], ""⟩,
       ⟨"d", none, "numeric", "4", "verified", 85, [], ""⟩]
      ).overall_trust_score = 85 ∧
    (score_all_claims
      [⟨"a", none, "numeric", "1", "verified", 84, [], ""⟩,
       ⟨"b", none, "numeric", "2", "verified", 85, [], ""⟩,
       ⟨"c", none, "numeric", "3", "verified", 85, [], ""⟩,
       ⟨"d", none, "numeric", "4", "verified", 85, [], ""⟩]
      ).overall_label = "⚠️ Partially Trustworthy" := by
  refine ⟨?_, ?_, by norm_num, ?_, ?_⟩
  · rw [score_all_claims_score_eq]
    norm_num [meanTrust, pyRound]
  · norm_num [meanTrust]
  · rw [score_all_claims_score_eq]
    norm_num [meanTrust, pyRound]
  · rw [score_all_claims_label_eq]
    norm_num [meanTrust]

/--
**Claim C2, amended.**  `score_all_claims` returns `overall_trust_score`
equal to the **banker's-rounded** unweighted arithmetic mean of the
per-claim trust scores (severity plays no role — no severity field is
even consulted); the returned score lies in `[0, 100]` whenever every
per-claim score does; the label bands are applied to the **unrounded**
mean: "highly trustworthy" iff mean ≥ 85, "partially trustworthy" iff
mean ∈ [70, 85), "moderately trustworthy" iff mean ∈ [50, 70), else "low
trustworthiness"; the empty list yields score 0 and a total-claims count
of 0 without raising.
-/
theorem score_all_claims_spec (l : List ClaimResult) :
    ((score_all_claims l).overall_trust_score = pyRound (meanTrust l)) ∧
    ((∀ c ∈ l, 0 ≤ c.trust_score ∧ c.trust_score ≤ 100) →
      0 ≤ (score_all_claims l).overall_trust_score ∧
        (score_all_claims l).overall_trust_score ≤ 100) ∧
    ((score_all_claims l).overall_label = "✅ Highly Trustworthy" ↔
      85 ≤ meanTrust l) ∧
    ((score_all_claims l).overall_label = "⚠️ Partially Trustworthy" ↔
      70 ≤ meanTrust l ∧ meanTrust l < 85) ∧
    ((score_all_claims l).overall_label = "❓ Moderately Trustworthy" ↔
      50 ≤ meanTrust l ∧ meanTrust l < 70) ∧
    ((score_all_claims l).overall_label = "🚩 Low Trustworthiness" ↔
      meanTrust l < 50) ∧
    ((score_all_claims []).overall_trust_score = 0 ∧
      (score_all_claims []).total_claims = 0) := by
  have hmean_bounds : (∀ c ∈ l, 0 ≤ c.trust_score ∧ c.trust_score ≤ 100) →
      0 ≤ meanTrust l ∧ meanTrust l ≤ 100 := by
    intro hb
    obtain ⟨hs0, hs1⟩ := sum_trustQ_bounds l hb
    unfold meanTrust
    rcases Nat.eq_zero_or_pos l.length with h0 | hpos
    · simp [h0]
    · rw [if_pos hpos]
      have hlpos : (0 : ℚ) < (l.length : ℚ) := by exact_mod_cast hpos
      constructor
      · exact div_nonneg hs0 (le_of_lt hlpos)
      · rw [div_le_iff₀ hlpos]
        linarith
  refine ⟨score_all_claims_score_eq l, ?_, ?_, ?_, ?_, ?_, ?_⟩
  · intro hb
    obtain ⟨hm0, hm1⟩ := hmean_bounds hb
    rw [score_all_claims_score_eq]
    exact ⟨pyRound_nonneg hm0, pyRound_le (by exact_mod_cast hm1)⟩
  · rw [score_all_claims_label_eq]
    split_ifs with h1 h2 h3 <;> simp_all <;> linarith
  · rw [score_all_claims_label_eq]
    split_ifs with h1 h2 h3 <;> simp_all <;>
      first
        | (constructor <;> linarith)
        | (intro h; linarith)
  · rw [score_all_claims_label_eq]
    split_ifs with h1 h2 h3 <;> simp_all <;>
      first
        | (constructor <;> linarith)
        | (intro h; linarith)
  · rw [score_all_claims_label_eq]
    split_ifs with h1 h2 h3 <;> simp_all <;> linarith
  · constructor
    · rw [score_all_claims_score_eq]
      norm_num [meanTrust, pyRound]
    · rfl

/--
Witness for C2 (amended): a single verified claim with score 95 gives a
report whose returned score is in range and whose label is the highest
band.
-/
theorem score_all_claims_spec_witness :
    0 ≤ (score_all_claims
      [⟨"a", none, "skill_match", "python", "verified", 95, [], ""⟩]
      ).overall_trust_score ∧
    (score_all_claims
      [⟨"a", none, "skill_match", "python", "verified", 95, [], ""⟩]
      ).overall_trust_score ≤ 100 ∧
    (score_all_claims
      [⟨"a", none, "skill_match", "python", "verified", 95, [], ""⟩]
      ).overall_label = "✅ Highly Trustworthy" := by
  have h := score_all_claims_spec
    [⟨"a", none, "skill_match", "python", "verified", 95, [], ""⟩]
  obtain ⟨-, h2, h3, -⟩ := h
  have hr := h2 (by
    intro c hc
    simp only [List.mem_singleton] at hc
    subst hc
    constructor <;> decide)
  refine ⟨hr.1, hr.2, h3.mpr ?_⟩
  norm_num [meanTrust]

/-! ## ATS engine (src/scoring/ats_engine.py) -/

/-- `ATSEngine.calculate_skill_match`, returning the match percentage.
The `_skills_match` predicate is a parameter: the source's matcher also
consults `difflib.SequenceMatcher.ratio()` (floating-point similarity),
treated here as an opaque predicate — every theorem below holds for any
matcher.  `verified_skill_names` is the `skill` column of the
consistency report's `verified_skills` (the `v_skill.get("skill", "")`
lookups); a JD skill counts as matched if it matches a resume skill, or
failing that a verified skill, both compared lowercased. -/
def calculate_skill_match (matcher : String → String → Bool)
    (jd_skills resume_skills verified_skill_names : List String) : ℚ :=
  if jd_skills.isEmpty then 0
  else
    ((jd_skills.countP fun jd =>
      resume_skills.any (fun rs => matcher (pyLowerS jd) (pyLowerS rs)) ||
      verified_skill_names.any
        (fun vs => matcher (pyLowerS jd) (pyLowerS vs))) : ℚ) /
      (jd_skills.length : ℚ) * 100

/-- `ATSEngine.calculate_claim_verification_rate`: verified counts 1,
partially_verified counts 0.5, averaged over all claims; the empty list
short-circuits to 0. -/
def calculate_claim_verification_rate (claim_results : List ClaimResult) :
    ℚ :=
  if claim_results.isEmpty then 0
  else
    ((claim_results.countP fun c => c.status = "verified" : ℚ) +
      (claim_results.countP fun c => c.status = "partially_verified" : ℚ)
        * 0.5) /
      (claim_results.length : ℚ) * 100

/-- `ATSEngine.calculate_timeline_consistency_score`: count verified
project and work records, subtract 5 per overlap (floored at 0), divide
by the record count — 100 when there are no records, 0 when the stage is
falsy (`None` or `{}`). -/
def calculate_timeline_consistency_score (tv : Option TimelineValidity) :
    ℚ :=
  match tv with
  | none => 0
  | some t =>
    let consistent : Int :=
      (t.project_timelines.countP fun p => p.verified) +
        (t.work_timelines.countP fun w => w.verified)
    let overlaps : Int :=
      match t.overall_consistency with
      | some o => o.overlapping_periods.length
      | none => 0
    let total := t.project_timelines.length + t.work_timelines.length
    if total > 0 then
      ((max 0 (consistent - overlaps * 5) : Int) : ℚ) / (total : ℚ) * 100
    else 100

def ats_status_of (s : Int) : String :=
  if s ≥ 80 then "🟢 Strong Match"
  else if s ≥ 60 then "🟡 Moderate Match"
  else if s ≥ 40 then "🟠 Weak Match"
  else "🔴 Poor Match"

/-- The ATS report (the breakdown dict flattened to the four raw
component percentages). -/
structure ATSReport where
  ats_score : Int
  ats_status : String
  jd_skill_match_pct : ℚ
  verified_claims_pct : ℚ
  resume_completeness_pct : ℚ
  timeline_consistency_pct : ℚ

/-- `ATSEngine.calculate_ats_score`, from the four component inputs:
`jd_skills` comes from `extract_jd_skills(jd_text)` (upstream keyword
scan), `completeness_percentage` is read **raw** from the caller-supplied
completeness dict (`completeness_score.get("percentage", 0)`) — nothing
clamps it — and only the final weighted sum is clamped to `[0, 100]`
before rounding. -/
def calculate_ats_score (matcher : String → String → Bool)
    (jd_skills resume_skills verified_skill_names : List String)
    (claim_results : List ClaimResult)
    (completeness_percentage : ℚ)
    (timeline_validation : Option TimelineValidity) : ATSReport :=
  let skill_match_pct :=
    calculate_skill_match matcher jd_skills resume_skills
      verified_skill_names
  let claim_verification_pct :=
    calculate_claim_verification_rate claim_results
  let completeness_pct := completeness_percentage
  let timeline_consistency_pct :=
    calculate_timeline_consistency_score timeline_validation
  let ats_raw :=
    skill_match_pct * W_JD_SKILL_MATCH +
    claim_verification_pct * W_VERIFIED_CLAIMS +
    completeness_pct * W_RESUME_COMPLETENESS +
    timeline_consistency_pct * W_TIMELINE_CONSISTENCY
  let ats := pyRound (min 100 (max 0 ats_raw))
  { ats_score := ats
    ats_status := ats_status_of ats
    jd_skill_match_pct := skill_match_pct
    verified_claims_pct := claim_verification_pct
    resume_completeness_pct := completeness_pct
    timeline_consistency_pct := timeline_consistency_pct }

/-- The ATS formula exactly as the spec words it: each component
percentage independently clamped to `[0, 100]` before weighting, the
final result clamped to `[0, 100]` and rounded. -/
def clampPct (x : ℚ) : ℚ := min 100 (max 0 x)

def specATSFormula (jd cv rc tc : ℚ) : Int :=
  pyRound (clampPct (clampPct jd * 0.4 + clampPct cv * 0.3 +
    clampPct rc * 0.2 + clampPct tc * 0.1))

/-! ### Claim C1: the ATS formula -/

theorem calculate_skill_match_bounds (matcher : String → String → Bool)
    (jd resume ver : List String) :
    0 ≤ calculate_skill_match matcher jd resume ver ∧
      calculate_skill_match matcher jd resume ver ≤ 100 := by
  unfold calculate_skill_match
  split_ifs with h
  · norm_num
  · have hlen : 0 < jd.length := by
      cases jd with
      | nil => simp at h
      | cons a l => simp
    have hcnt := List.countP_le_length
      (fun jdv => resume.any (fun rs => matcher (pyLowerS jdv) (pyLowerS rs)) ||
        ver.any (fun vs => matcher (pyLowerS jdv) (pyLowerS vs))) (l := jd)
    have hlq : (0 : ℚ) < (jd.length : ℚ) := by exact_mod_cast hlen
    have hcq : ((jd.countP fun jdv =>
        resume.any (fun rs => matcher (pyLowerS jdv) (pyLowerS rs)) ||
        ver.any (fun vs => matcher (pyLowerS jdv) (pyLowerS vs)) : ℚ)) ≤
        (jd.length : ℚ) := by exact_mod_cast hcnt
    constructor
    · positivity
    · rw [div_mul_eq_mul_div, div_le_iff₀ hlq]
      nlinarith
theorem countP_status_pair_le (l : List ClaimResult) :
    (l.countP fun c => c.status = "verified") +
      (l.countP fun c => c.status = "partially_verified") ≤ l.length := by
  induction l with
  | nil => simp
  | cons c rest ih =>
    simp only [List.countP_cons, List.length_cons]
    by_cases h1 : c.status = "verified"
    · have h2 : ¬ c.status = "partially_verified" := by
        rw [h1]; decide
      simp [h1, h2]
      omega
    · by_cases h2 : c.status = "partially_verified" <;> simp [h1, h2] <;> omega

theorem calculate_claim_verification_rate_bounds (l : List ClaimResult) :
    0 ≤ calculate_claim_verification_rate l ∧
      calculate_claim_verification_rate l ≤ 100 := by
  unfold calculate_claim_verification_rate
  split_ifs with h
  · norm_num
  · have hlen : 0 < l.length := by
      cases l with
      | nil => simp at h
      | cons a t => simp
    have hcnt := countP_status_pair_le l
    have hlq : (0 : ℚ) < (l.length : ℚ) := by exact_mod_cast hlen
    have hv : ((l.countP fun c => c.status = "verified" : ℚ)) +
        ((l.countP fun c => c.status = "partially_verified" : ℚ)) ≤
        (l.length : ℚ) := by exact_mod_cast hcnt
    constructor
    · positivity
    · rw [div_mul_eq_mul_div, div_le_iff₀ hlq]
      nlinarith [Nat.cast_nonneg (α := ℚ)
        (l.countP fun c => c.status = "partially_verified")]

theorem calculate_timeline_consistency_score_bounds
    (tv : Option TimelineValidity) :
    0 ≤ calculate_timeline_consistency_score tv ∧
      calculate_timeline_consistency_score tv ≤ 100 := by
  unfold calculate_timeline_consistency_score
  match tv with
  | none => norm_num
  | some t =>
    simp only
    split_ifs with h
    · have hc : ((t.project_timelines.countP fun p => p.verified : Int)) +
          ((t.work_timelines.countP fun w => w.verified : Int)) ≤
          ((t.project_timelines.length + t.work_timelines.length : Nat) : Int) := by
        push_cast
        have := List.countP_le_length (fun p => p.verified)
          (l := t.project_timelines)
        have := List.countP_le_length (fun w => w.verified)
          (l := t.work_timelines)
        omega
      have ho : (0 : Int) ≤
          (match t.overall_consistency with
           | some o => (o.overlapping_periods.length : Int)
           | none => 0) := by
        match t.overall_consistency with
        | some o => positivity
        | none => norm_num
      have hlq : (0 : ℚ) <
          ((t.project_timelines.length + t.work_timelines.length : Nat) : ℚ) := by
        exact_mod_cast h
      constructor
      · positivity
      · rw [div_mul_eq_mul_div, div_le_iff₀ hlq]
        have hmax : (max 0
            ((t.project_timelines.countP fun p => p.verified : Int) +
              (t.work_timelines.countP fun w => w.verified : Int) -
              (match t.overall_consistency with
               | some o => (o.overlapping_periods.length : Int)
               | none => 0) * 5) : Int) ≤
            ((t.project_timelines.length + t.work_timelines.length : Nat) : Int) := by
          rw [max_le_iff]
          constructor
          · positivity
          · omega
        have hmq : ((max 0
            ((t.project_timelines.countP fun p => p.verified : Int) +
              (t.work_timelines.countP fun w => w.verified : Int) -
              (match t.overall_consistency with
               | some o => (o.overlapping_periods.length : Int)
               | none => 0) * 5) : Int) : ℚ) ≤
            ((t.project_timelines.length + t.work_timelines.length : Nat) : ℚ) := by
          exact_mod_cast hmax
        nlinarith [hmq, hlq]
    · norm_num

/--
**Claim C1, counterexample.**  Components are **not** independently
clamped before weighting: the resume-completeness percentage enters the
weighted sum raw from the caller-supplied dict.  With all other
components 0 and completeness 200, the code returns
`round(min(100, max(0, 0.2·200))) = 40`, while the claimed formula —
clamping each component to `[0, 100]` first — gives `round(0.2·100) =
20`.
-/
theorem calculate_ats_score_no_component_clamp :
    (calculate_ats_score (fun _ _ => false) [] [] [] [] 200 none).ats_score
      = 40 ∧
    specATSFormula 0 0 200 0 = 20 ∧
    ((40 : Int) ≠ 20) := by
  refine ⟨?_, ?_, by decide⟩
  · show pyRound (min 100 (max 0
      (calculate_skill_match (fun _ _ => false) [] [] [] * W_JD_SKILL_MATCH +
        calculate_claim_verification_rate [] * W_VERIFIED_CLAIMS +
        200 * W_RESUME_COMPLETENESS +
        calculate_timeline_consistency_score none * W_TIMELINE_CONSISTENCY)))
      = 40
    norm_num [calculate_skill_match, calculate_claim_verification_rate,
      calculate_timeline_consistency_score, pyRound, W_JD_SKILL_MATCH,
      W_VERIFIED_CLAIMS, W_RESUME_COMPLETENESS, W_TIMELINE_CONSISTENCY]
  · norm_num [specATSFormula, clampPct, pyRound]

/--
**Claim C1, amended.**  `calculate_ats_score` clamps only the **final**
weighted sum to `[0, 100]` before rounding (banker's rounding); the
components are weighted unclamped.  The three internally computed
components (JD skill match, claim verification, timeline consistency)
always lie in `[0, 100]`, and whenever the caller-supplied completeness
percentage also lies in `[0, 100]` the result coincides with the spec's
fully-clamped formula; the final score is always in `[0, 100]`; for
component values 50, 50, 60 and 100 the result is 57 with the weak-match
status.
-/
theorem calculate_ats_score_spec (matcher : String → String → Bool)
    (jd resume ver : List String) (claims : List ClaimResult)
    (compl : ℚ) (tv : Option TimelineValidity)
    (hc0 : 0 ≤ compl) (hc1 : compl ≤ 100) :
    ((calculate_ats_score matcher jd resume ver claims compl tv).ats_score =
      specATSFormula (calculate_skill_match matcher jd resume ver)
        (calculate_claim_verification_rate claims) compl
        (calculate_timeline_consistency_score tv)) ∧
    (0 ≤ (calculate_ats_score matcher jd resume ver claims compl
        tv).ats_score ∧
      (calculate_ats_score matcher jd resume ver claims compl
        tv).ats_score ≤ 100) ∧
    (calculate_ats_score (fun a b => a = b) ["python", "aws"] ["python"] []
      [⟨"a", none, "skill_match", "python", "verified", 95, [], ""⟩,
       ⟨"b", none, "skill_match", "aws", "unverified", 30, [], ""⟩]
      60 (some ⟨[⟨"verified", true⟩], [], none⟩)).ats_score = 57 ∧
    (calculate_ats_score (fun a b => a = b) ["python", "aws"] ["python"] []
      [⟨"a", none, "skill_match", "python", "verified", 95, [], ""⟩,
       ⟨"b", none, "skill_match", "aws", "unverified", 30, [], ""⟩]
      60 (some ⟨[⟨"verified", true⟩], [], none⟩)).ats_status =
      "🟠 Weak Match" := by
  obtain ⟨hs0, hs1⟩ := calculate_skill_match_bounds matcher jd resume ver
  obtain ⟨hv0, hv1⟩ := calculate_claim_verification_rate_bounds claims
  obtain ⟨ht0, ht1⟩ := calculate_timeline_consistency_score_bounds tv
  have hdef : (calculate_ats_score matcher jd resume ver claims compl
      tv).ats_score =
      pyRound (min 100 (max 0
        (calculate_skill_match matcher jd resume ver * W_JD_SKILL_MATCH +
          calculate_claim_verification_rate claims * W_VERIFIED_CLAIMS +
          compl * W_RESUME_COMPLETENESS +
          calculate_timeline_consistency_score tv *
            W_TIMELINE_CONSISTENCY))) := rfl
  have hskill50 : calculate_skill_match (fun a b => a = b) ["python", "aws"]
      ["python"] [] = ((1 : ℕ) : ℚ) / ((2 : ℕ) : ℚ) * 100 := rfl
  have hrate50 : calculate_claim_verification_rate
      [⟨"a", none, "skill_match", "python", "verified", 95, [], ""⟩,
       ⟨"b", none, "skill_match", "aws", "unverified", 30, [], ""⟩] =
      (((1 : ℕ) : ℚ) + ((0 : ℕ) : ℚ) * 0.5) / ((2 : ℕ) : ℚ) * 100 := rfl
  have htl100 : calculate_timeline_consistency_score
      (some ⟨[⟨"verified", true⟩], [], none⟩) =
      ((max 0 ((1 : ℤ) - 0 * 5) : ℤ) : ℚ) / ((1 : ℕ) : ℚ) * 100 := rfl
  have hdefs : (calculate_ats_score (fun a b => a = b) ["python", "aws"]
      ["python"] []
      [⟨"a", none, "skill_match", "python", "verified", 95, [], ""⟩,
       ⟨"b", none, "skill_match", "aws", "unverified", 30, [], ""⟩]
      60 (some ⟨[⟨"verified", true⟩], [], none⟩)).ats_score =
      pyRound (min 100 (max 0
        (calculate_skill_match (fun a b => a = b) ["python", "aws"]
            ["python"] [] * W_JD_SKILL_MATCH +
          calculate_claim_verification_rate
            [⟨"a", none, "skill_match", "python", "verified", 95, [], ""⟩,
             ⟨"b", none, "skill_match", "aws", "unverified", 30, [], ""⟩] *
            W_VERIFIED_CLAIMS +
          60 * W_RESUME_COMPLETENESS +
          calculate_timeline_consistency_score
            (some ⟨[⟨"verified", true⟩], [], none⟩) *
            W_TIMELINE_CONSISTENCY))) := rfl
  have h57 : pyRound (min 100 (max 0
      (calculate_skill_match (fun a b => a = b) ["python", "aws"]
          ["python"] [] * W_JD_SKILL_MATCH +
        calculate_claim_verification_rate
          [⟨"a", none, "skill_match", "python", "verified", 95, [], ""⟩,
           ⟨"b", none, "skill_match", "aws", "unverified", 30, [], ""⟩] *
          W_VERIFIED_CLAIMS +
        60 * W_RESUME_COMPLETENESS +
        calculate_timeline_consistency_score
          (some ⟨[⟨"verified", true⟩], [], none⟩) *
          W_TIMELINE_CONSISTENCY))) = 57 := by
    rw [hskill50, hrate50, htl100]
    norm_num [pyRound, W_JD_SKILL_MATCH, W_VERIFIED_CLAIMS,
      W_RESUME_COMPLETENESS, W_TIMELINE_CONSISTENCY]
  refine ⟨?_, ⟨?_, ?_⟩, ?_, ?_⟩
  · rw [hdef]
    unfold specATSFormula clampPct
    rw [max_eq_right hs0, min_eq_right hs1, max_eq_right hv0,
      min_eq_right hv1, max_eq_right hc0, min_eq_right hc1,
      max_eq_right ht0, min_eq_right ht1]
    rfl
  · rw [hdef]
    apply pyRound_nonneg
    exact le_min (by norm_num) (le_max_left 0 _)
  · rw [hdef]
    apply pyRound_le
    push_cast
    exact min_le_left _ _
  · rw [hdefs, h57]
  · have hstat : (calculate_ats_score (fun a b => a = b) ["python", "aws"]
        ["python"] []
        [⟨"a", none, "skill_match", "python", "verified", 95, [], ""⟩,
         ⟨"b", none, "skill_match", "aws", "unverified", 30, [], ""⟩]
        60 (some ⟨[⟨"verified", true⟩], [], none⟩)).ats_status =
        ats_status_of ((calculate_ats_score (fun a b => a = b)
          ["python", "aws"] ["python"] []
          [⟨"a", none, "skill_match", "python", "verified", 95, [], ""⟩,
           ⟨"b", none, "skill_match", "aws", "unverified", 30, [], ""⟩]
          60 (some ⟨[⟨"verified", true⟩], [], none⟩)).ats_score) := rfl
    rw [hstat, hdefs, h57]
    norm_num [ats_status_of]

/--
Witness for C1 (amended): the spec scenario — components 50, 50, 60 and
100 — discharged through the theorem at a completeness of 60.
-/
theorem calculate_ats_score_spec_witness :
    (calculate_ats_score (fun a b => a = b) ["python", "aws"] ["python"] []
      [⟨"a", none, "skill_match", "python", "verified", 95, [], ""⟩,
       ⟨"b", none, "skill_match", "aws", "unverified", 30, [], ""⟩]
      60 (some ⟨[⟨"verified", true⟩], [], none⟩)).ats_score = 57 :=
  (calculate_ats_score_spec (fun a b => a = b) ["python", "aws"] ["python"]
    [] [⟨"a", none, "skill_match", "python", "verified", 95, [], ""⟩,
        ⟨"b", none, "skill_match", "aws", "unverified", 30, [], ""⟩]
    60 (some ⟨[⟨"verified", true⟩], [], none⟩)
    (by norm_num) (by norm_num)).2.2.1
